import Mathlib

/-!
Verification of the dialogue-to-audio pipeline of `src/index.py`.

The Python source is shallowly embedded: strings are handled as `List Char`
(Python `str.splitlines` is modelled as splitting on a newline character,
`str.strip` / regex `\s` as stripping the common whitespace characters
including the ideographic space U+3000), floats are modelled as exact
decimal rationals (the numeric literals appearing in the program — 0.25,
4.0, 0.5, 20.0 — are all exactly representable IEEE doubles, and the code
only compares and stores parsed values, so the rational model agrees with
the float semantics on everything stated here), and fallible code returns
`Except PyError`.

The name `VOICE_ID_TSUKUYOMI` is referenced at four places of the source
(the default voice map of `synthesize_dialogue` and both flush sites of
`parse_text_content`) but never defined — the module defines
`VOICE_ID_woman` instead — so evaluating those expressions raises a Python
`NameError`; the embedding models such an evaluation as
`Except.error (PyError.nameError "VOICE_ID_TSUKUYOMI")`.

External effects (the Google TTS network call of
`synthesize_text_with_google`, and reading a WAV file from disk with
`wave.open`) are parameters of the embedded functions: a `tts` oracle that
either returns a temporary file name or `none` (the Python function catches
every synthesis exception and returns `None`), and a `readWav` oracle that
either returns the parsed WAV file or a `PyError` (a `wave.Error` or
`OSError` that `wave.open` can raise on the temporary files).
-/

namespace VoiceDialogue

/-! ## Characters, whitespace, line splitting -/

/-- Whitespace as stripped by Python `str.strip()` and matched by `\s`
(restricted to the characters that can actually occur here: ASCII whitespace
and the ideographic space). -/
def isPySpace (c : Char) : Bool :=
  c == ' ' || c == '\t' || c == '\n' || c == '\r' || c == '\x0b' || c == '\x0c' ||
    c == '　'

/-- Python `str.strip()`: drop leading and trailing whitespace. -/
def pyStripL (l : List Char) : List Char :=
  ((l.dropWhile isPySpace).reverse.dropWhile isPySpace).reverse

/-- Split a character list at every occurrence of `c` (so
`text_content.splitlines()` is modelled as `splitOnChar '\n'`; the model
composes it with strip-and-drop-blank, which absorbs `\r\n` endings and the
empty tail that a trailing newline produces). -/
def splitOnChar (c : Char) : List Char → List (List Char)
  | [] => [[]]
  | x :: xs =>
    match splitOnChar c xs with
    | [] => [[]]
    | h :: t => if x == c then [] :: h :: t else (x :: h) :: t

def splitOnNl (l : List Char) : List (List Char) := splitOnChar '\n' l

/-! ## The regular expressions of `parse_text_content` and `clean_text` -/

/-- Does `l` start with `tag`?  (`re.match` is anchored at the start and does
not require the match to cover the whole line.) -/
def hasTagAt (tag l : List Char) : Bool := l.take tag.length == tag

def manTag : List Char := "[男性]".toList
def womanTag : List Char := "[女性]".toList
def manLabel : List Char := "男性".toList
def womanLabel : List Char := "女性".toList

/-- `re.match(r'\[(男性|女性)\]', text)`: the captured group. -/
def speakerMatchL (l : List Char) : Option (List Char) :=
  if hasTagAt manTag l then some manLabel
  else if hasTagAt womanTag l then some womanLabel
  else none

def isDigitDot (c : Char) : Bool := c.isDigit || c == '.'

def isDigitDotDash (c : Char) : Bool := c.isDigit || c == '.' || c == '-'

def speedTagChars : List Char := "速度:".toList
def pitchTagChars : List Char := "ピッチ:".toList

/-- `re.match(tag + r'\s*(CLASS+)', text)`: the captured group, for a
character class `ok` — the longest run of `ok`-characters after the tag and
any whitespace, required to be non-empty.  (`\d` is modelled as the ASCII
digits, the digit syntax of the spec's directive grammar.) -/
def numAfterTag (tag : List Char) (ok : Char → Bool) (l : List Char) :
    Option (List Char) :=
  if hasTagAt tag l then
    let num := ((l.drop tag.length).dropWhile isPySpace).takeWhile ok
    if num == [] then none else some num
  else none

/-- `re.match(r'速度:\s*([\d.]+)', text)`: the captured group. -/
def speedMatchL (l : List Char) : Option (List Char) :=
  numAfterTag speedTagChars isDigitDot l

/-- `re.match(r'ピッチ:\s*([-\d.]+)', text)`: the captured group. -/
def pitchMatchL (l : List Char) : Option (List Char) :=
  numAfterTag pitchTagChars isDigitDotDash l

/-! ## Python `float()` on the captured groups -/

def digitsToNat (ds : List Char) : Nat :=
  ds.foldl (fun a c => a * 10 + (c.toNat - 48)) 0

/-- `float(s)` for a string of digits and dots (the only strings the
`[\d.]+` group can produce): defined exactly when there is at most one dot
and at least one digit, as Python `float` raises `ValueError` otherwise
(e.g. on `"1.2.3"` or `"."`). -/
def pyFloatPos (l : List Char) : Option ℚ :=
  if l.all isDigitDot && decide (l.count '.' ≤ 1) && l.any (fun c => c.isDigit) then
    let ip := l.takeWhile (fun c => c != '.')
    let fp := (l.dropWhile (fun c => c != '.')).drop 1
    some ((digitsToNat ip : ℚ) + (digitsToNat fp : ℚ) / (10 : ℚ) ^ fp.length)
  else none

/-- `float(s)` for a `[-\d.]+` group: one optional leading minus sign. -/
def pyFloat (l : List Char) : Option ℚ :=
  match l with
  | '-' :: rest => (pyFloatPos rest).map (fun q => -q)
  | _ => pyFloatPos l

/-! ## Errors and data model -/

inductive PyError where
  | nameError (name : String)
  | valueError (msg : String)
  | waveError (msg : String)
  | indexError (msg : String)
  | osError (msg : String)
  deriving Repr, DecidableEq

/-- One parsed dialogue line, the dict
`{"text": ..., "id": ..., "pitch": ..., "speed": ...}` built by
`parse_text_content`. -/
structure DialogueLine where
  text : List Char
  id : Nat
  pitch : ℚ
  speed : ℚ
  deriving Repr, DecidableEq

def VOICE_ID_man : Nat := 0

def VOICE_ID_woman : Nat := 1

/-- The error raised wherever the source evaluates the undefined name
`VOICE_ID_TSUKUYOMI`. -/
def tsukuyomiError : PyError := .nameError "VOICE_ID_TSUKUYOMI"

/-! ## `parse_text_content` -/

/-- `" ".join(current_text)`. -/
def joinSpace : List (List Char) → List Char
  | [] => []
  | [t] => t
  | t :: ts => t ++ ' ' :: joinSpace ts

/-- Building the line dict appended by `parse_text_content`:
`VOICE_ID_man if current_speaker == "男性" else VOICE_ID_TSUKUYOMI` — the
`else` branch evaluates an undefined name and raises `NameError`. -/
def flushLine (spk : List Char) (texts : List (List Char)) (speed pitch : ℚ) :
    Except PyError DialogueLine :=
  if spk == manLabel then .ok ⟨joinSpace texts, VOICE_ID_man, pitch, speed⟩
  else .error tsukuyomiError

/-- The loop state of `parse_text_content`. -/
structure ParseState where
  current_speaker : Option (List Char)
  current_text : List (List Char)
  current_speed : ℚ
  current_pitch : ℚ
  lines : List DialogueLine
  deriving Repr, DecidableEq

def initState : ParseState := ⟨none, [], 1, 0, []⟩

/-- One iteration of the parse loop on an already-stripped, non-blank line. -/
def coreStep (st : ParseState) (text : List Char) : Except PyError ParseState :=
  match speakerMatchL text with
  | some label =>
    match st.current_speaker with
    | some spk =>
      if st.current_text == [] then
        .ok ⟨some label, st.current_text, 1, 0, st.lines⟩
      else
        match flushLine spk st.current_text st.current_speed st.current_pitch with
        | .ok dl => .ok ⟨some label, [], 1, 0, st.lines ++ [dl]⟩
        | .error e => .error e
    | none => .ok ⟨some label, st.current_text, 1, 0, st.lines⟩
  | none =>
    match speedMatchL text with
    | some num =>
      match pyFloat num with
      | some q => .ok ⟨st.current_speaker, st.current_text, q, st.current_pitch, st.lines⟩
      | none => .error (.valueError "could not convert string to float")
    | none =>
      match pitchMatchL text with
      | some num =>
        match pyFloat num with
        | some q => .ok ⟨st.current_speaker, st.current_text, st.current_speed, q, st.lines⟩
        | none => .error (.valueError "could not convert string to float")
      | none =>
        match st.current_speaker with
        | some _ =>
          .ok ⟨st.current_speaker, st.current_text ++ [text], st.current_speed,
            st.current_pitch, st.lines⟩
        | none => .ok st

/-- One iteration of the parse loop on a raw line:
`text = raw.strip(); if not text: continue`. -/
def stripStep (st : ParseState) (raw : List Char) : Except PyError ParseState :=
  let text := pyStripL raw
  if text == [] then .ok st else coreStep st text

/-- The flush after the loop (`if current_speaker is not None and
current_text:`), returning the collected lines. -/
def finishState (st : ParseState) : Except PyError (List DialogueLine) :=
  match st.current_speaker with
  | some spk =>
    if st.current_text == [] then .ok st.lines
    else
      match flushLine spk st.current_text st.current_speed st.current_pitch with
      | .ok dl => .ok (st.lines ++ [dl])
      | .error e => .error e
  | none => .ok st.lines

def parseChars (input : List Char) : Except PyError (List DialogueLine) :=
  match (splitOnNl input).foldlM stripStep initState with
  | .ok st => finishState st
  | .error e => .error e

/-- `parse_text_content` of `src/index.py` (lines 176–226). -/
def parse_text_content (text_content : String) : Except PyError (List DialogueLine) :=
  parseChars text_content.toList

/-! ## WAV files and `combine_wav_files` -/

/-- The format parameters the combiner reads from a WAV file
(`getnchannels`, `getsampwidth`, `getframerate`). -/
structure WavParams where
  nchannels : Nat
  sampwidth : Nat
  framerate : Nat
  deriving Repr, DecidableEq

/-- A WAV file as the `wave` module sees it: its parameters and its raw
sample bytes. -/
structure WavFile where
  params : WavParams
  data : List Nat
  deriving Repr, DecidableEq

def framesizeOf (p : WavParams) : Nat := p.nchannels * p.sampwidth

/-- `getnframes()`: the number of whole frames the data holds. -/
def WavFile.nframes (w : WavFile) : Nat := w.data.length / framesizeOf w.params

/-- `infile.readframes(infile.getnframes())`: the bytes of those frames. -/
def WavFile.readAll (w : WavFile) : List Nat :=
  w.data.take (w.nframes * framesizeOf w.params)

/-- A clip's duration in seconds. -/
def wavDuration (w : WavFile) : ℚ := (w.nframes : ℚ) / (w.params.framerate : ℚ)

/-- `int(silence_duration * frame_rate)` with `silence_duration = 0.5`: the
product `0.5 * frame_rate` is computed exactly in binary floating point (a
halving is an exponent shift, and any `frame_rate` the `wave` module accepts
has far fewer than 53 significant bits), and `int()` truncates it, so the
frame count is `⌊frame_rate / 2⌋`. -/
def silenceFrames (frame_rate : Nat) : Nat := frame_rate / 2

/-- `b'\x00' * (silence_frames * n_channels * sample_width)`, the zero-filled
inter-clip gap, built from the first file's parameters. -/
def silenceBytes (p : WavParams) : List Nat :=
  List.replicate (silenceFrames p.framerate * p.nchannels * p.sampwidth) 0

/-- The `for i, wav_file in enumerate(wav_files)` loop body: stream each
file's frames, and after every file except the last the silence gap.  `p`
holds the parameters read from the first file before the loop. -/
def combineLoop (readWav : String → Except PyError WavFile) (p : WavParams) :
    List String → Except PyError (List Nat)
  | [] => .ok []
  | [f] =>
    match readWav f with
    | .ok w => .ok w.readAll
    | .error e => .error e
  | f :: g :: rest =>
    match readWav f with
    | .ok w =>
      match combineLoop readWav p (g :: rest) with
      | .ok bs => .ok (w.readAll ++ silenceBytes p ++ bs)
      | .error e => .error e
    | .error e => .error e

/-- `combine_wav_files` of `src/index.py` (lines 45–66): raise `ValueError`
on an empty list before anything is opened; otherwise read the first file's
parameters, open the output with them and write every file's frames with
silence gaps in between.  On success the result is the output path and the
written file; an `error` result models the exception propagating with no
output artifact committed. -/
def combine_wav_files (readWav : String → Except PyError WavFile)
    (wav_files : List String) (output_path : String) :
    Except PyError (String × WavFile) :=
  match wav_files with
  | [] => .error (.valueError "wav_files is empty")
  | f0 :: rest =>
    match readWav f0 with
    | .error e => .error e
    | .ok first =>
      match combineLoop readWav first.params (f0 :: rest) with
      | .ok bytes => .ok (output_path, ⟨first.params, bytes⟩)
      | .error e => .error e

/-! ## `clean_text`, `validate_synthesis_params` -/

def serifuTag : List Char := "セリフ:".toList

/-- `clean_text`: `re.sub(r'^セリフ:\s*', '', text).strip()`. -/
def clean_text (text : List Char) : List Char :=
  let t :=
    if hasTagAt serifuTag text then (text.drop serifuTag.length).dropWhile isPySpace
    else text
  pyStripL t

/-- The `params` dict handed to `validate_synthesis_params`: each key may be
absent (`params.get` supplies the default). -/
structure ParamsDict where
  speed? : Option ℚ
  pitch? : Option ℚ
  deriving Repr, DecidableEq

/-- The float literal `0.25` (exactly one quarter; built as a raw rational
so that comparisons against it evaluate in the kernel). -/
def quarterQ : ℚ := ⟨1, 4, by decide, by decide⟩

/-- `validate_synthesis_params` of `src/index.py` (lines 106–122). -/
def validate_synthesis_params (params : ParamsDict) : ParamsDict :=
  let sr := params.speed?.getD 1
  let sr := if sr < quarterQ then quarterQ else sr
  let sr := if sr > 4 then (4 : ℚ) else sr
  let p := params.pitch?.getD 0
  let p := if p < -20 then (-20 : ℚ) else p
  let p := if p > 20 then (20 : ℚ) else p
  ⟨some sr, some p⟩

/-! ## `synthesize_dialogue` and the `/synthesize` route -/

/-- `voice_map.get(speaker_id, list(voice_map.values())[0])`: the voice map
is an insertion-ordered dict, modelled as an association list; on a missing
key the first entry's value is used, and on an empty map indexing
`[0]` raises `IndexError`. -/
def lookupVoice (vm : List (Nat × String)) (k : Nat) : Except PyError String :=
  match vm.lookup k with
  | some v => .ok v
  | none =>
    match vm with
    | [] => .error (.indexError "list index out of range")
    | p :: _ => .ok p.2

deriving instance DecidableEq for Except

/-- The outcome of one `synthesize_dialogue` call: the Python return value
(or the exception that escaped), the per-line temporary files still on disk
when the call returns, and the combined artifact if one was written. -/
structure SynthOutcome where
  result : Except PyError (Option String × Option String)
  tempsRemaining : List String
  artifact : Option (String × WavFile)
  deriving Repr, DecidableEq

/-- The per-line loop of `synthesize_dialogue`: clean each line's text, skip
empty ones, clamp the parameters, resolve the voice, call the backend, and
collect the temporary files of the successful calls.  Returns the loop's
result together with the temporary files created (which exist on disk
whether or not the loop finishes normally). -/
def synthLoop (tts : List Char → String → ℚ → ℚ → Option String)
    (vm : List (Nat × String)) :
    List DialogueLine → Except PyError (List String) × List String
  | [] => (.ok [], [])
  | line :: rest =>
    let cleaned := clean_text line.text
    if cleaned == [] then synthLoop tts vm rest
    else
      let ps := validate_synthesis_params ⟨some line.speed, some line.pitch⟩
      match lookupVoice vm line.id with
      | .error e => (.error e, [])
      | .ok voice =>
        match tts cleaned voice (ps.speed?.getD 1) (ps.pitch?.getD 0) with
        | some tmp =>
          match synthLoop tts vm rest with
          | (res, created) => ((res.map fun l => tmp :: l), tmp :: created)
        | none => synthLoop tts vm rest

/-- `synthesize_dialogue` of `src/index.py` (lines 124–174).  With
`voice_map=None` the default map literal is built, whose second key is the
undefined name `VOICE_ID_TSUKUYOMI` — a `NameError`.  Otherwise the per-line
loop runs; with no clips the Python pair `(None, message)` is returned; else
the clips are combined into `output_path` and only after a successful
combine are the temporary files removed (`combine_wav_files` is not wrapped
in any `try`/`finally`). -/
def synthesize_dialogue (tts : List Char → String → ℚ → ℚ → Option String)
    (readWav : String → Except PyError WavFile) (output_path : String)
    (lines : List DialogueLine) (voice_map : Option (List (Nat × String))) :
    SynthOutcome :=
  match voice_map with
  | none => ⟨.error tsukuyomiError, [], none⟩
  | some vm =>
    match synthLoop tts vm lines with
    | (.error e, created) => ⟨.error e, created, none⟩
    | (.ok temp_files, _) =>
      if temp_files == [] then
        ⟨.ok (none, some "音声ファイルが生成できませんでした（Google TTS エラー）"), [], none⟩
      else
        match combine_wav_files readWav temp_files output_path with
        | .error e => ⟨.error e, temp_files, none⟩
        | .ok (p, w) => ⟨.ok (some p, none), [], some (p, w)⟩

/-- The HTTP response of the `/synthesize` route: success JSON, a 400
client-error JSON, or a 500 server-error JSON. -/
inductive RouteResponse where
  | ok (file_path : String)
  | clientError (msg : String)
  | serverError (msg : String)
  deriving Repr, DecidableEq

/-- The `/synthesize` route of `src/index.py` (lines 243–269), given the
content of `text.txt`: parse it (an exception is caught by the handler and
becomes a 500 response), answer 400 when nothing was parsed, otherwise run
`synthesize_dialogue` and map its outcome to a response.  The triple also
carries the temporary files left on disk and the artifact written. -/
def synthesize_route (tts : List Char → String → ℚ → ℚ → Option String)
    (readWav : String → Except PyError WavFile) (output_path : String)
    (text_content : String) (vm : List (Nat × String)) :
    RouteResponse × List String × Option (String × WavFile) :=
  match parse_text_content text_content with
  | .error _ => (.serverError "予期せぬエラーが発生しました", [], none)
  | .ok [] => (.clientError "合成するデータがありません。text.txtの形式を確認してください。", [], none)
  | .ok ls =>
    let o := synthesize_dialogue tts readWav output_path ls (some vm)
    match o.result with
    | .error _ => (.serverError "予期せぬエラーが発生しました", o.tempsRemaining, o.artifact)
    | .ok (p?, e?) =>
      match e? with
      | some msg => (.serverError msg, o.tempsRemaining, o.artifact)
      | none => (.ok (p?.getD ""), o.tempsRemaining, o.artifact)

/-! ## The blockwise reference parser (the specification's reading)

Modelled from the spec: §4.1 describes the parser as splitting the cleaned
input at speaker-tag lines into blocks, where directive lines "update the
current block's parameters in place and do not themselves become body
text", a block's parameters are "the last directive seen before its tag
closes, defaulting to (1.0, 0.0) when absent", and a block flushes one
`DialogueLine` exactly when it has body text.  These definitions restate
that reading; the refinement theorem for C5 identifies them with
`parse_text_content`. -/

def isNonTag (t : List Char) : Bool := (speakerMatchL t).isNone

/-- A directive line: one that the speed or the pitch pattern matches. -/
def isDirectiveLine (t : List Char) : Bool :=
  (speedMatchL t).isSome || (pitchMatchL t).isSome

/-- The effect of one line on the current block's `(speed, pitch)`: a speed
directive replaces the speed, a pitch directive the pitch (raising
`ValueError` on a malformed number), any other line changes nothing. -/
def applyDirective (sp pi : ℚ) (t : List Char) : Except PyError (ℚ × ℚ) :=
  match speedMatchL t with
  | some num =>
    match pyFloat num with
    | some q => .ok (q, pi)
    | none => .error (.valueError "could not convert string to float")
  | none =>
    match pitchMatchL t with
    | some num =>
      match pyFloat num with
      | some q => .ok (sp, q)
      | none => .error (.valueError "could not convert string to float")
    | none => .ok (sp, pi)

/-- The `(speed, pitch)` a block's body leaves behind: the value of the last
directive of each kind, starting from the given defaults. -/
def blockParamsFrom (sp pi : ℚ) (body : List (List Char)) : Except PyError (ℚ × ℚ) :=
  body.foldlM (fun a t => applyDirective a.1 a.2 t) (sp, pi)

/-- A block's body text: its lines that are not directive lines. -/
def blockTexts (body : List (List Char)) : List (List Char) :=
  body.filter (fun t => !isDirectiveLine t)

/-- Split the lines after the first speaker tag into `(label, body)` blocks,
one per speaker-tag line. -/
def splitBlocksAux (label : List Char) (acc : List (List Char)) :
    List (List Char) → List (List Char × List (List Char))
  | [] => [(label, acc.reverse)]
  | t :: rest =>
    match speakerMatchL t with
    | some l2 => (label, acc.reverse) :: splitBlocksAux l2 [] rest
    | none => splitBlocksAux label (t :: acc) rest

/-- Turn one block into at most one `DialogueLine`: parameters are the last
directives of the body (default `(1, 0)`), the text joins the non-directive
body lines, and a block with no body text flushes nothing. -/
def processBlock (acc : List DialogueLine) (b : List Char × List (List Char)) :
    Except PyError (List DialogueLine) :=
  match blockParamsFrom 1 0 b.2 with
  | .error e => .error e
  | .ok (sp, pi) =>
    if blockTexts b.2 == [] then .ok acc
    else
      match flushLine b.1 (blockTexts b.2) sp pi with
      | .ok dl => .ok (acc ++ [dl])
      | .error e => .error e

/-- The input's lines, stripped, with blank ones removed. -/
def cleanedLines (input : List Char) : List (List Char) :=
  ((splitOnNl input).map pyStripL).filter (fun t => t != [])

/-- The blockwise reference parser (the spec's description of §4.1): check
the pre-tag lines for malformed directives, then process the blocks in
document order. -/
def parseBlockwise (input : String) : Except PyError (List DialogueLine) :=
  let ls := cleanedLines input.toList
  match blockParamsFrom 1 0 (ls.takeWhile isNonTag) with
  | .error e => .error e
  | .ok _ =>
    match ls.dropWhile isNonTag with
    | [] => .ok []
    | t :: rest =>
      match speakerMatchL t with
      | some l => (splitBlocksAux l [] rest).foldlM processBlock []
      | none => .ok []

/-- Running the parse loop on already-cleaned lines and flushing at the
end; `parse_text_content` factors through this. -/
def runCore (ls : List (List Char)) (st : ParseState) :
    Except PyError (List DialogueLine) :=
  ls.foldlM coreStep st >>= finishState

/-! ## Frame and duration bookkeeping for the combiner -/

/-- The frames a file contributes to the combine (0 for a file whose open
fails — a value never reached under the hypotheses that use it). -/
def framesOfRead (readWav : String → Except PyError WavFile) (f : String) : Nat :=
  match readWav f with
  | .ok w => w.nframes
  | .error _ => 0

def totalFramesOf (readWav : String → Except PyError WavFile)
    (files : List String) : Nat :=
  (files.map (framesOfRead readWav)).sum

/-- The duration a file contributes (0 for a failing open). -/
def durationOfRead (readWav : String → Except PyError WavFile) (f : String) : ℚ :=
  match readWav f with
  | .ok w => wavDuration w
  | .error _ => 0

def totalDurationOf (readWav : String → Except PyError WavFile)
    (files : List String) : ℚ :=
  (files.map (durationOfRead readWav)).sum

/-! ## Concrete inputs used by witnesses and counterexamples -/

/-- Two same-format clips on disk: 1 channel, 1-byte samples, 2 Hz; 2 frames
and 4 frames. -/
def cReadShared : String → Except PyError WavFile := fun f =>
  if f == "a.wav" then .ok ⟨⟨1, 1, 2⟩, [5, 6]⟩ else .ok ⟨⟨1, 1, 2⟩, [7, 8, 9, 10]⟩

/-- Every path holds the same 1-second clip at the odd frame rate 3 Hz. -/
def cReadOdd : String → Except PyError WavFile := fun _ => .ok ⟨⟨1, 1, 3⟩, [1, 1, 1]⟩

/-- Two clips of mismatched format: mono 1-byte samples versus stereo 2-byte
samples. -/
def cReadMismatch : String → Except PyError WavFile := fun f =>
  if f == "a.wav" then .ok ⟨⟨1, 1, 4⟩, [1, 1]⟩ else .ok ⟨⟨2, 2, 4⟩, [2, 2, 2, 2]⟩

/-- A backend that synthesizes every line into the same temporary file. -/
def cTts : List Char → String → ℚ → ℚ → Option String :=
  fun _ _ _ _ => some "temp_google_1.wav"

/-- Opening any temporary file fails (e.g. the backend's bytes were not a
RIFF header), as `wave.open` can during the combine step. -/
def cReadBad : String → Except PyError WavFile :=
  fun _ => .error (.waveError "file does not start with RIFF id")

/-- Every temporary file opens as a small valid clip. -/
def cReadGood : String → Except PyError WavFile := fun _ => .ok ⟨⟨1, 1, 2⟩, [0, 0]⟩

/-- One dialogue line as the parser would emit it. -/
def cLine : DialogueLine := ⟨"こんにちは".toList, 0, 0, 1⟩

/-! ## Basic lemmas on `Except` -/

@[simp]
theorem except_error_bind {ε α β : Type} (e : ε) (f : α → Except ε β) :
    (Except.error e >>= f) = Except.error e := rfl

@[simp]
theorem except_ok_bind {ε α β : Type} (a : α) (f : α → Except ε β) :
    (Except.ok a >>= f) = f a := rfl

@[simp]
theorem except_map_error {ε α β : Type} (e : ε) (f : α → β) :
    (Except.error e : Except ε α).map f = Except.error e := rfl

@[simp]
theorem except_map_ok {ε α β : Type} (a : α) (f : α → β) :
    (Except.ok a : Except ε α).map f = Except.ok (f a) := rfl

/-! ## The parse loop over cleaned lines -/

theorem foldlM_stripStep (ls : List (List Char)) (st : ParseState) :
    ls.foldlM stripStep st =
      ((ls.map pyStripL).filter (fun t => t != [])).foldlM coreStep st := by
  induction ls generalizing st with
  | nil => rfl
  | cons x xs ih =>
    by_cases h : pyStripL x = []
    · simp [stripStep, h, ih]
    · simp only [List.map_cons, List.filter_cons, List.foldlM_cons, stripStep]
      rw [show (pyStripL x == []) = false by simp [h],
        show (pyStripL x != []) = true by simp [h]]
      simp only [Bool.false_eq_true, if_false, if_true, List.foldlM_cons]
      cases hr : coreStep st (pyStripL x) with
      | ok s => simp [hr, ih]
      | error e => simp [hr]

theorem parseChars_eq_runCore (input : List Char) :
    parseChars input = runCore (cleanedLines input) initState := by
  unfold parseChars runCore cleanedLines
  rw [foldlM_stripStep]
  cases h : ((splitOnNl input).map pyStripL).filter (fun t => t != [])
      |>.foldlM coreStep initState with
  | ok s => simp [h]
  | error e => simp [h]

/-- On a non-tag line the loop body is exactly the directive update, plus
(when a speaker is open) accumulating a non-directive line as body text. -/
theorem coreStep_nonTag (st : ParseState) (t : List Char)
    (h : speakerMatchL t = none) :
    coreStep st t =
      (applyDirective st.current_speed st.current_pitch t).map (fun pr =>
        { st with
          current_speed := pr.fst
          current_pitch := pr.snd
          current_text := st.current_text ++
            (if st.current_speaker.isSome ∧ ¬ (isDirectiveLine t = true)
              then [t] else []) }) := by
  obtain ⟨spk0, ct0, sp0, pi0, ls0⟩ := st
  unfold coreStep applyDirective isDirectiveLine
  rw [h]
  cases hs : speedMatchL t with
  | some num =>
    cases hf : pyFloat num with
    | some q => simp [hs, hf]
    | none => simp [hs, hf]
  | none =>
    cases hp : pitchMatchL t with
    | some num =>
      cases hf : pyFloat num with
      | some q => simp [hs, hp, hf]
      | none => simp [hs, hp, hf]
    | none =>
      cases spk0 with
      | some spk => simp [hs, hp]
      | none => simp [hs, hp]

/-- Folding the loop over non-tag lines is the fold of the directive
updates, with the non-directive lines joining the body text when a speaker
is open. -/
theorem foldlM_coreStep_nonTag (body : List (List Char))
    (h : ∀ t ∈ body, speakerMatchL t = none) (st : ParseState) :
    body.foldlM coreStep st =
      (blockParamsFrom st.current_speed st.current_pitch body).map (fun pr =>
        { st with
          current_speed := pr.fst
          current_pitch := pr.snd
          current_text := st.current_text ++
            (if st.current_speaker.isSome then blockTexts body else []) }) := by
  induction body generalizing st with
  | nil =>
    obtain ⟨spk0, ct0, sp0, pi0, ls0⟩ := st
    simp [blockParamsFrom, blockTexts, Except.map, pure, Except.pure]
  | cons t ts ih =>
    have ht : speakerMatchL t = none := h t (by simp)
    have hts : ∀ u ∈ ts, speakerMatchL u = none := fun u hu => h u (by simp [hu])
    simp only [List.foldlM_cons, blockParamsFrom, coreStep_nonTag st t ht]
    cases ha : applyDirective st.current_speed st.current_pitch t with
    | error e => simp [ha]
    | ok pr =>
      simp only [ha, except_map_ok, except_ok_bind]
      rw [ih hts]
      have hbt : blockTexts (t :: ts) =
          (if isDirectiveLine t = true then [] else [t]) ++ blockTexts ts := by
        simp only [blockTexts, List.filter_cons]
        by_cases hd : isDirectiveLine t = true
        · simp [hd]
        · simp [hd]
      cases hspk : st.current_speaker with
      | none => simp [blockParamsFrom]
      | some spk =>
        simp only [blockParamsFrom, hbt, Option.isSome_some, true_and, if_true]
        by_cases hd : isDirectiveLine t = true
        · simp [hd]
        · simp [hd]

/-! ## The refinement of `parse_text_content` by the blockwise parser -/

theorem blockParamsFrom_append (sp pi : ℚ) (xs ys : List (List Char)) :
    blockParamsFrom sp pi (xs ++ ys) =
      blockParamsFrom sp pi xs >>= fun pr => blockParamsFrom pr.fst pr.snd ys := by
  simp [blockParamsFrom, List.foldlM_append]

/-- A block whose accumulated lines already fail the directive scan makes
the whole blockwise run fail with that error, whatever follows. -/
theorem splitBlocksAux_params_error (rest : List (List Char)) :
    ∀ (label : List Char) (acc : List (List Char)) (A : List DialogueLine)
      (e : PyError), blockParamsFrom 1 0 acc.reverse = .error e →
      (splitBlocksAux label acc rest).foldlM processBlock A = .error e := by
  induction rest with
  | nil =>
    intro label acc A e he
    simp [splitBlocksAux, processBlock, he]
  | cons u us ih =>
    intro label acc A e he
    cases hu : speakerMatchL u with
    | some l2 =>
      simp [splitBlocksAux, hu, processBlock, he]
    | none =>
      simp only [splitBlocksAux, hu]
      apply ih
      rw [List.reverse_cons, blockParamsFrom_append, he]
      rfl

/-- Inside an open block, running the rest of the loop is processing the
blocks the remaining lines form. -/
theorem runCore_blocks (rs : List (List Char)) :
    ∀ (label : List Char) (acc : List (List Char)) (sp pi : ℚ)
      (A : List DialogueLine),
      blockParamsFrom 1 0 acc.reverse = .ok (sp, pi) →
      runCore rs ⟨some label, blockTexts acc.reverse, sp, pi, A⟩ =
        (splitBlocksAux label acc rs).foldlM processBlock A := by
  induction rs with
  | nil =>
    intro label acc sp pi A hp
    simp only [runCore, List.foldlM_nil, splitBlocksAux, List.foldlM_cons,
      List.foldlM_nil, except_ok_bind]
    have : (pure ⟨some label, blockTexts acc.reverse, sp, pi, A⟩ :
        Except PyError ParseState) >>= finishState =
        finishState ⟨some label, blockTexts acc.reverse, sp, pi, A⟩ := rfl
    rw [this]
    simp only [finishState, processBlock, hp]
    by_cases ht : blockTexts acc.reverse == []
    · simp only [ht, if_true]
      cases hf : (processBlock A (label, acc.reverse)) <;> simp [processBlock, hp, ht]
    · simp only [ht, Bool.false_eq_true, if_false]
      cases hf : flushLine label (blockTexts acc.reverse) sp pi with
      | ok dl => simp [hf]
      | error e => simp [hf]
  | cons t rest ih =>
    intro label acc sp pi A hp
    cases hm : speakerMatchL t with
    | some l2 =>
      simp only [runCore, List.foldlM_cons]
      have hstep : coreStep ⟨some label, blockTexts acc.reverse, sp, pi, A⟩ t =
          (if blockTexts acc.reverse == [] then
            .ok ⟨some l2, blockTexts acc.reverse, 1, 0, A⟩
          else
            match flushLine label (blockTexts acc.reverse) sp pi with
            | .ok dl => .ok ⟨some l2, [], 1, 0, A ++ [dl]⟩
            | .error e => .error e) := by
        simp [coreStep, hm]
      rw [hstep]
      have hsb : splitBlocksAux label acc (t :: rest) =
          (label, acc.reverse) :: splitBlocksAux l2 [] rest := by
        simp [splitBlocksAux, hm]
      rw [hsb, List.foldlM_cons]
      by_cases ht : blockTexts acc.reverse == []
      · have hte : blockTexts acc.reverse = [] := by simpa using ht
        simp only [ht, if_true, except_ok_bind]
        have hIH : runCore rest ⟨some l2, [], 1, 0, A⟩ =
            List.foldlM processBlock A (splitBlocksAux l2 [] rest) := by
          simpa [blockTexts] using ih l2 [] 1 0 A rfl
        have hpb : processBlock A (label, acc.reverse) = .ok A := by
          simp [processBlock, hp, ht]
        rw [hpb, except_ok_bind, hte]
        exact hIH
      · simp only [ht, Bool.false_eq_true, if_false]
        cases hf : flushLine label (blockTexts acc.reverse) sp pi with
        | ok dl =>
          simp only [except_ok_bind]
          have hIH : runCore rest ⟨some l2, [], 1, 0, A ++ [dl]⟩ =
              List.foldlM processBlock (A ++ [dl]) (splitBlocksAux l2 [] rest) := by
            simpa [blockTexts] using ih l2 [] 1 0 (A ++ [dl]) rfl
          have hpb : processBlock A (label, acc.reverse) = .ok (A ++ [dl]) := by
            simp [processBlock, hp, ht, hf]
          rw [hpb, except_ok_bind]
          exact hIH
        | error e =>
          simp only [except_error_bind]
          have hpb : processBlock A (label, acc.reverse) = .error e := by
            simp [processBlock, hp, ht, hf]
          rw [hpb, except_error_bind]
    | none =>
      simp only [runCore, List.foldlM_cons]
      rw [coreStep_nonTag _ t hm]
      have hsb : splitBlocksAux label acc (t :: rest) =
          splitBlocksAux label (t :: acc) rest := by
        simp [splitBlocksAux, hm]
      cases ha : applyDirective sp pi t with
      | error e =>
        simp only [except_map_error, except_error_bind, hsb]
        rw [splitBlocksAux_params_error]
        rw [List.reverse_cons, blockParamsFrom_append, hp]
        simp [blockParamsFrom, ha]
      | ok pr =>
        simp only [except_map_ok, except_ok_bind, Option.isSome_some, true_and]
        have hps : blockParamsFrom 1 0 (t :: acc).reverse = .ok (pr.fst, pr.snd) := by
          rw [List.reverse_cons, blockParamsFrom_append, hp]
          simp only [except_ok_bind]
          simp [blockParamsFrom, ha]
        have hstate : (blockTexts acc.reverse ++
            if ¬ isDirectiveLine t = true then [t] else []) =
            blockTexts (t :: acc).reverse := by
          rw [List.reverse_cons]
          simp only [blockTexts, List.filter_append, List.filter_cons]
          by_cases hd : isDirectiveLine t = true
          · simp [hd]
          · simp [hd]
        rw [hsb, hstate, ← ih label (t :: acc) pr.fst pr.snd A hps]
        rfl

theorem dropWhile_head_false {α : Type} (p : α → Bool) (l : List α) (x : α)
    (xs : List α) (h : l.dropWhile p = x :: xs) : p x = false := by
  induction l with
  | nil => simp [List.dropWhile] at h
  | cons a as ih =>
    rw [List.dropWhile_cons] at h
    by_cases hp : p a = true
    · rw [if_pos hp] at h
      exact ih h
    · rw [if_neg hp] at h
      cases h
      simpa using hp

/-- C5: for every input, `parse_text_content` agrees with the blockwise
reading of the spec — directive lines never join a line's `text` and never
open a line of their own (a `DialogueLine` is flushed once per speaker-tag
block with non-directive body text, which is exactly what `processBlock`
emits), and each line's `speed`/`pitch` are the last directives seen inside
its block, defaulting to `(1, 0)` (which is exactly `blockParamsFrom 1 0`
over the block's body). -/
theorem C5_parse_eq_blockwise (input : String) :
    parse_text_content input = parseBlockwise input := by
  rw [show parse_text_content input = parseChars input.toList from rfl,
    parseChars_eq_runCore]
  unfold parseBlockwise
  simp only [String.toList]
  have hpre : ∀ u ∈ (cleanedLines input.data).takeWhile isNonTag,
      speakerMatchL u = none := by
    intro u hu
    have := List.mem_takeWhile_imp hu
    simpa [isNonTag, Option.isNone_iff_eq_none] using this
  have hdecomp : cleanedLines input.data =
      (cleanedLines input.data).takeWhile isNonTag ++
        (cleanedLines input.data).dropWhile isNonTag :=
    Eq.symm (List.takeWhile_append_dropWhile _ _)
  rw [runCore]
  conv_lhs => rw [hdecomp]
  rw [List.foldlM_append, foldlM_coreStep_nonTag _ hpre initState]
  cases hbp : blockParamsFrom initState.current_speed initState.current_pitch
      ((cleanedLines input.data).takeWhile isNonTag) with
  | error e =>
    have hbp1 : blockParamsFrom 1 0
        ((cleanedLines input.data).takeWhile isNonTag) = .error e := hbp
    simp [hbp, hbp1]
  | ok pr =>
    have hbp1 : blockParamsFrom 1 0
        ((cleanedLines input.data).takeWhile isNonTag) = .ok pr := hbp
    simp only [hbp, hbp1, except_map_ok, except_ok_bind]
    have hst : ({ initState with
        current_speed := pr.fst
        current_pitch := pr.snd
        current_text := initState.current_text ++
          (if initState.current_speaker.isSome then
            blockTexts ((cleanedLines input.data).takeWhile isNonTag)
          else []) } : ParseState) = ⟨none, [], pr.fst, pr.snd, []⟩ := by
      simp [initState]
    rw [hst]
    cases hrest : (cleanedLines input.data).dropWhile isNonTag with
    | nil =>
      simp [finishState]
    | cons t rs =>
      have hnt : isNonTag t = false := dropWhile_head_false _ _ _ _ hrest
      have hl : ∃ l, speakerMatchL t = some l := by
        cases hsp : speakerMatchL t with
        | none => simp [isNonTag, hsp] at hnt
        | some l => exact ⟨l, rfl⟩
      obtain ⟨l, hl⟩ := hl
      simp only [List.foldlM_cons]
      have hcs : coreStep ⟨none, [], pr.fst, pr.snd, []⟩ t =
          .ok ⟨some l, [], 1, 0, []⟩ := by
        simp [coreStep, hl]
      rw [hcs, except_ok_bind, hl]
      have := runCore_blocks rs l [] 1 0 [] rfl
      simpa [runCore, blockTexts] using this

/-! ## Evaluations of the parser at the claimed scenarios -/

/-- C1: the claimed scenario does not hold of the code — parsing
`"[男性]\nこんにちは\n[女性]\n元気です"` does not return two dialogue
lines: flushing the 女性 block evaluates the undefined name
`VOICE_ID_TSUKUYOMI` (the source defines `VOICE_ID_woman` but never uses
it), so the call raises `NameError` and returns nothing. -/
theorem C1_scenario_raises :
    parse_text_content "[男性]\nこんにちは\n[女性]\n元気です" =
      .error (.nameError "VOICE_ID_TSUKUYOMI") := by decide

/-- C2: the parser does not complete without error on every input: a
女性 block with body text raises `NameError` (undefined
`VOICE_ID_TSUKUYOMI`), and a malformed directive number such as
`速度: 1.2.3` raises `ValueError` from `float()`.  The claim's other half —
an input with no speaker tags yields the empty sequence — does hold. -/
theorem C2_parser_raises :
    parse_text_content "[女性]\nこんにちは" =
        .error (.nameError "VOICE_ID_TSUKUYOMI") ∧
      parse_text_content "[男性]\n速度: 1.2.3\nこんにちは" =
        .error (.valueError "could not convert string to float") ∧
      parse_text_content "こんにちは" = .ok [] :=
  ⟨by decide, by decide, by decide⟩

/-! ## The combiner on the empty list (C10) and on mismatched formats (C4) -/

/-- C10: combining an empty clip list raises `ValueError` for every output
path, before any output file is opened (the `raise` at line 48 of the
source precedes both `wave.open` calls, which is why the model can return
the error without consulting `readWav` or producing an artifact). -/
theorem C10_combine_empty_raises (readWav : String → Except PyError WavFile)
    (output_path : String) :
    combine_wav_files readWav [] output_path =
      .error (.valueError "wav_files is empty") := rfl

/-- C10 witness: the empty-list error at a concrete output path. -/
theorem C10_witness :
    combine_wav_files cReadBad [] "voice_dialogue_20240101.wav" =
      .error (.valueError "wav_files is empty") :=
  C10_combine_empty_raises cReadBad "voice_dialogue_20240101.wav"

/-- C4 counterexample: two clips whose sample widths and channel counts
differ (mono 1-byte versus stereo 2-byte) are combined without any error —
the output artifact is produced under the first clip's parameters with both
clips' raw frames — contradicting the claim that the combine fails with a
format-mismatch error and leaves no artifact. -/
theorem C4_counterexample :
    combine_wav_files cReadMismatch ["a.wav", "b.wav"] "out.wav" =
      .ok ("out.wav", ⟨⟨1, 1, 4⟩, [1, 1, 0, 0, 2, 2, 2, 2]⟩) := by decide

theorem combineLoop_ok (readWav : String → Except PyError WavFile)
    (p : WavParams) (files : List String)
    (hall : ∀ f ∈ files, ∃ w, readWav f = .ok w) :
    ∃ bs, combineLoop readWav p files = .ok bs := by
  induction files with
  | nil => exact ⟨[], rfl⟩
  | cons f rest ih =>
    obtain ⟨w, hw⟩ := hall f (by simp)
    cases rest with
    | nil => exact ⟨w.readAll, by simp [combineLoop, hw]⟩
    | cons g gs =>
      obtain ⟨bs, hbs⟩ := ih (fun u hu => hall u (by simp [hu]))
      exact ⟨w.readAll ++ silenceBytes p ++ bs, by simp [combineLoop, hw, hbs]⟩

/-- C4 amended: `combine_wav_files` performs no format check at all —
whenever every listed file opens, the combine succeeds and writes an output
under the first file's parameters, whether or not the clips' channel counts
or sample widths agree (the same-format requirement is only a documented
precondition of the function, `同一フォーマット前提`). -/
theorem C4_amended_no_format_check (readWav : String → Except PyError WavFile)
    (f0 : String) (fs : List String) (out : String) (w0 : WavFile)
    (h0 : readWav f0 = .ok w0)
    (hall : ∀ f ∈ f0 :: fs, ∃ w, readWav f = .ok w) :
    ∃ o, combine_wav_files readWav (f0 :: fs) out = .ok (out, o) ∧
      o.params = w0.params := by
  obtain ⟨bs, hbs⟩ := combineLoop_ok readWav w0.params (f0 :: fs) hall
  exact ⟨⟨w0.params, bs⟩, by simp [combine_wav_files, h0, hbs], rfl⟩

/-- C4 witness: the amended statement at the mismatched pair of clips. -/
theorem C4_witness :
    ∃ o, combine_wav_files cReadMismatch ["a.wav", "b.wav"] "c4.wav" =
      .ok ("c4.wav", o) ∧ o.params = WavFile.params ⟨⟨1, 1, 4⟩, [1, 1]⟩ :=
  C4_amended_no_format_check cReadMismatch "a.wav" ["b.wav"] "c4.wav"
    ⟨⟨1, 1, 4⟩, [1, 1]⟩ (by decide)
    (by
      intro f hf
      rcases List.mem_cons.mp hf with h | h
      · exact ⟨⟨⟨1, 1, 4⟩, [1, 1]⟩, by rw [h]; decide⟩
      · have : f = "b.wav" := by simpa using h
        exact ⟨⟨⟨2, 2, 4⟩, [2, 2, 2, 2]⟩, by rw [this]; decide⟩)

/-! ## Temporary-file lifecycle (C7) and voice-map fallback (C9) -/

/-- C7 counterexample: a run in which the backend produced one temporary
clip and the combine step then failed (its `wave.open` on the temporary
file raised) returns with the temporary file still on disk — the deletion
loop of `synthesize_dialogue` runs only after a successful combine, so the
claim that temp files are deleted on failure paths too is false. -/
theorem C7_counterexample :
    (synthesize_dialogue cTts cReadBad "out.wav" [cLine]
        (some [(0, "ja-JP-Wavenet-A")])).result =
      .error (.waveError "file does not start with RIFF id") ∧
    (synthesize_dialogue cTts cReadBad "out.wav" [cLine]
        (some [(0, "ja-JP-Wavenet-A")])).tempsRemaining =
      ["temp_google_1.wav"] :=
  ⟨by decide, by decide⟩

/-- C7 amended: every per-line temporary file is deleted before
`synthesize_dialogue` returns *normally* (both on the combined-artifact
path and on the no-clips path); when an exception escapes — in particular
when the combine step fails — the temporary files are not deleted. -/
theorem C7_amended_temps (tts : List Char → String → ℚ → ℚ → Option String)
    (readWav : String → Except PyError WavFile) (out : String)
    (lines : List DialogueLine) (vm : Option (List (Nat × String)))
    (r : Option String × Option String)
    (h : (synthesize_dialogue tts readWav out lines vm).result = .ok r) :
    (synthesize_dialogue tts readWav out lines vm).tempsRemaining = [] := by
  cases vm with
  | none => simp [synthesize_dialogue] at h
  | some m =>
    simp only [synthesize_dialogue] at h ⊢
    rcases hl : synthLoop tts m lines with ⟨res, created⟩
    rw [hl] at h
    cases res with
    | error e => simp at h
    | ok temps =>
      by_cases ht : temps = []
      · simp [ht]
      · simp only [beq_iff_eq, if_neg ht] at h ⊢
        cases hc : combine_wav_files readWav temps out with
        | error e =>
          rw [hc] at h
          simp at h
        | ok pr =>
          rcases pr with ⟨p, w⟩
          rfl

/-- C7 witness: a fully successful run leaves no temporary file. -/
theorem C7_witness :
    (synthesize_dialogue cTts cReadGood "out.wav" [cLine]
      (some [(0, "ja-JP-Wavenet-A")])).tempsRemaining = [] :=
  C7_amended_temps cTts cReadGood "out.wav" [cLine]
    (some [(0, "ja-JP-Wavenet-A")]) (some "out.wav", none) (by decide)

/-- C9: the built-in default voice map cannot be used at all — calling
`synthesize_dialogue` with no voice map raises `NameError` while building
the default dict, whose second key is the undefined `VOICE_ID_TSUKUYOMI` —
so no voice is resolved on that path.  With a caller-supplied map the
fallback the claim describes does work: a line whose speaker id 0 is not a
key of the map `[(5, "A")]` resolves to the first entry's voice and the
run succeeds. -/
theorem C9_default_map_raises :
    (synthesize_dialogue cTts cReadGood "out.wav" [cLine] none).result =
        .error (.nameError "VOICE_ID_TSUKUYOMI") ∧
      (synthesize_dialogue cTts cReadGood "out.wav" [cLine]
          (some [(5, "A")])).result = .ok (some "out.wav", none) :=
  ⟨by decide, by decide⟩

/-! ## The pipeline on empty input (C8) -/

/-- C8: on empty input the parser returns the empty sequence, and the
`/synthesize` route answers with the 400 structured error
`合成するデータがありません。…` — the code's `NoDialogueFound` — with no
backend call made, no temporary file and no output artifact. -/
theorem C8_empty_input (tts : List Char → String → ℚ → ℚ → Option String)
    (readWav : String → Except PyError WavFile) (out : String)
    (vm : List (Nat × String)) :
    parse_text_content "" = .ok [] ∧
      synthesize_route tts readWav out "" vm =
        (.clientError "合成するデータがありません。text.txtの形式を確認してください。",
          [], none) :=
  ⟨by decide, rfl⟩

/-- C8 witness: the empty-input behaviour at concrete oracles. -/
theorem C8_witness :
    parse_text_content "" = .ok [] ∧
      synthesize_route cTts cReadBad "o.wav" "" [(0, "v")] =
        (.clientError "合成するデータがありません。text.txtの形式を確認してください。",
          [], none) :=
  C8_empty_input cTts cReadBad "o.wav" [(0, "v")]

/-! ## Frame counts and durations of the combine (C3) -/

theorem readAll_of_dvd (w : WavFile)
    (h : framesizeOf w.params ∣ w.data.length) : w.readAll = w.data := by
  rw [WavFile.readAll, WavFile.nframes, Nat.div_mul_cancel h, List.take_length]

theorem combineLoop_shared (readWav : String → Except PyError WavFile)
    (par : WavParams) (files : List String)
    (hall : ∀ f ∈ files, ∃ w, readWav f = .ok w ∧ w.params = par ∧
      framesizeOf par ∣ w.data.length) :
    files ≠ [] →
    ∃ bs, combineLoop readWav par files = .ok bs ∧
      bs.length = totalFramesOf readWav files * framesizeOf par +
        (files.length - 1) * (silenceFrames par.framerate * framesizeOf par) := by
  induction files with
  | nil => exact fun hne => absurd rfl hne
  | cons f rest ih =>
    intro _
    obtain ⟨w, hw, hwp, hwd⟩ := hall f (by simp)
    have hlen : w.readAll.length = w.nframes * framesizeOf par := by
      rw [readAll_of_dvd w (by rw [hwp]; exact hwd), WavFile.nframes, hwp,
        Nat.div_mul_cancel hwd]
    cases rest with
    | nil =>
      refine ⟨w.readAll, by simp [combineLoop, hw], ?_⟩
      simp [hlen, totalFramesOf, framesOfRead, hw]
    | cons g gs =>
      obtain ⟨bs, hbs, hbl⟩ := ih (fun u hu => hall u (by simp [hu])) (by simp)
      refine ⟨w.readAll ++ silenceBytes par ++ bs, by simp [combineLoop, hw, hbs], ?_⟩
      simp only [List.length_append, hlen, hbl, silenceBytes, List.length_replicate,
        totalFramesOf, List.map_cons, List.sum_cons, framesOfRead, hw,
        List.length_cons, Nat.add_sub_cancel]
      rw [show silenceFrames par.framerate * par.nchannels * par.sampwidth =
        silenceFrames par.framerate * framesizeOf par by rw [framesizeOf, mul_assoc]]
      ring

theorem totalDurationOf_shared (readWav : String → Except PyError WavFile)
    (par : WavParams) (files : List String)
    (hall : ∀ f ∈ files, ∃ w, readWav f = .ok w ∧ w.params = par ∧
      framesizeOf par ∣ w.data.length) :
    totalDurationOf readWav files =
      (totalFramesOf readWav files : ℚ) / (par.framerate : ℚ) := by
  induction files with
  | nil => simp [totalDurationOf, totalFramesOf]
  | cons f rest ih =>
    obtain ⟨w, hw, hwp, _⟩ := hall f (by simp)
    have ihr := ih (fun u hu => hall u (by simp [hu]))
    simp only [totalDurationOf, totalFramesOf, List.map_cons, List.sum_cons,
      durationOfRead, framesOfRead, hw] at ihr ⊢
    rw [ihr, wavDuration, hwp]
    push_cast
    rw [add_div]

/-- The gap `int(0.5 * frame_rate)` is within half a frame of a true half
second. -/
theorem half_floor_close (n : Nat) (hn : 0 < n) :
    |((n / 2 : Nat) : ℚ) / (n : ℚ) - 1/2| ≤ 1 / (2 * (n : ℚ)) := by
  have hn0 : (n : ℚ) ≠ 0 := by exact_mod_cast hn.ne'
  have hnpos : (0 : ℚ) < (n : ℚ) := by exact_mod_cast hn
  have hmod : n % 2 + 2 * (n / 2) = n := Nat.mod_add_div n 2
  have hmq : ((n % 2 : Nat) : ℚ) + 2 * ((n / 2 : Nat) : ℚ) = (n : ℚ) := by
    exact_mod_cast congrArg (fun k : Nat => (k : ℚ)) hmod
  have hm1 : ((n % 2 : Nat) : ℚ) ≤ 1 := by
    have : n % 2 ≤ 1 := Nat.le_of_lt_succ (Nat.mod_lt _ (by norm_num))
    exact_mod_cast this
  have hm0 : (0 : ℚ) ≤ ((n % 2 : Nat) : ℚ) := by positivity
  have key : ((n / 2 : Nat) : ℚ) / (n : ℚ) - 1/2 =
      -(((n % 2 : Nat) : ℚ) / (2 * (n : ℚ))) := by
    field_simp
    linear_combination (2 * (n : ℚ)) * hmq
  rw [key, abs_neg, abs_div, abs_of_nonneg hm0, abs_of_pos (by positivity)]
  gcongr

/-- C3 counterexample: four 1-second clips at the (odd) frame rate 3 Hz
combine — each inserted gap is `int(0.5 × 3) = 1` frame — into a 5-second
output, which is **not** within one frame (1/3 s) of the claimed
4 + 0.5 × 3 = 5.5 s: the deviation is 0.5 s. -/
theorem C3_counterexample :
    combine_wav_files cReadOdd ["a", "b", "c", "d"] "o" =
        .ok ("o", ⟨⟨1, 1, 3⟩, [1, 1, 1, 0, 1, 1, 1, 0, 1, 1, 1, 0, 1, 1, 1]⟩) ∧
      (1 : ℚ) / 3 <
        |wavDuration ⟨⟨1, 1, 3⟩, [1, 1, 1, 0, 1, 1, 1, 0, 1, 1, 1, 0, 1, 1, 1]⟩ -
          (totalDurationOf cReadOdd ["a", "b", "c", "d"] + (1/2) * 3)| := by
  refine ⟨by decide, ?_⟩
  have hv : wavDuration ⟨⟨1, 1, 3⟩, [1, 1, 1, 0, 1, 1, 1, 0, 1, 1, 1, 0, 1, 1, 1]⟩ -
      (totalDurationOf cReadOdd ["a", "b", "c", "d"] + (1/2) * 3) = -(1/2) := by
    norm_num [wavDuration, WavFile.nframes, framesizeOf, totalDurationOf,
      durationOfRead, cReadOdd]
  rw [hv, abs_neg, abs_of_pos (by norm_num : (0:ℚ) < 1/2)]
  norm_num

/-- C3 amended: for clips sharing the first clip's format,
`combine_wav_files` writes after every clip except the last exactly
`int(frame_rate × 0.5) = ⌊frame_rate/2⌋` frames of zero-filled silence of
the shared channel count and sample width, so the output's frame count is
the sum of the clips' frames plus `(k−1)·⌊fr/2⌋` and its duration is the
sum of the clip durations plus `(k−1)·⌊fr/2⌋/fr` seconds — within half a
frame per inserted gap of the claimed 0.5 s (and exactly 0.5 s per gap when
the frame rate is even).  The claim's one-frame total tolerance fails for
odd frame rates with four or more clips, see the counterexample. -/
theorem C3_amended_combine_duration (readWav : String → Except PyError WavFile)
    (f0 : String) (fs : List String) (out : String) (par : WavParams)
    (hfr : 0 < par.framerate) (hfsz : 0 < framesizeOf par)
    (hall : ∀ f ∈ f0 :: fs, ∃ w, readWav f = .ok w ∧ w.params = par ∧
      framesizeOf par ∣ w.data.length) :
    ∃ o, combine_wav_files readWav (f0 :: fs) out = .ok (out, o) ∧
      o.params = par ∧
      o.nframes = totalFramesOf readWav (f0 :: fs) +
        fs.length * silenceFrames par.framerate ∧
      wavDuration o = totalDurationOf readWav (f0 :: fs) +
        (fs.length : ℚ) *
          ((silenceFrames par.framerate : ℚ) / (par.framerate : ℚ)) ∧
      |wavDuration o - (totalDurationOf readWav (f0 :: fs) +
          (fs.length : ℚ) * (1/2))| ≤
        (fs.length : ℚ) / (2 * (par.framerate : ℚ)) := by
  obtain ⟨w0, hw0, hw0p, _⟩ := hall f0 (by simp)
  obtain ⟨bs, hbs, hbl⟩ := combineLoop_shared readWav par (f0 :: fs) hall (by simp)
  have hcomb : combine_wav_files readWav (f0 :: fs) out = .ok (out, ⟨par, bs⟩) := by
    simp [combine_wav_files, hw0, hw0p, hbs]
  have hnf : (WavFile.mk par bs).nframes =
      totalFramesOf readWav (f0 :: fs) + fs.length * silenceFrames par.framerate := by
    rw [WavFile.nframes]
    simp only [hbl, List.length_cons, Nat.add_sub_cancel]
    rw [show totalFramesOf readWav (f0 :: fs) * framesizeOf par +
        fs.length * (silenceFrames par.framerate * framesizeOf par) =
        (totalFramesOf readWav (f0 :: fs) +
          fs.length * silenceFrames par.framerate) * framesizeOf par by ring]
    exact Nat.mul_div_cancel _ hfsz
  have hfrq : (0 : ℚ) < (par.framerate : ℚ) := by exact_mod_cast hfr
  have hdur : wavDuration ⟨par, bs⟩ = totalDurationOf readWav (f0 :: fs) +
      (fs.length : ℚ) * ((silenceFrames par.framerate : ℚ) / (par.framerate : ℚ)) := by
    rw [wavDuration, hnf, totalDurationOf_shared readWav par (f0 :: fs) hall]
    push_cast
    rw [add_div, mul_div_assoc]
  refine ⟨⟨par, bs⟩, hcomb, rfl, hnf, hdur, ?_⟩
  rw [hdur]
  have hclose := half_floor_close par.framerate hfr
  have hstep : wavDuration ⟨par, bs⟩ + 0 = wavDuration ⟨par, bs⟩ := by ring
  calc |totalDurationOf readWav (f0 :: fs) +
        (fs.length : ℚ) * ((silenceFrames par.framerate : ℚ) / (par.framerate : ℚ)) -
        (totalDurationOf readWav (f0 :: fs) + (fs.length : ℚ) * (1/2))|
      = (fs.length : ℚ) *
        |((silenceFrames par.framerate : ℚ) / (par.framerate : ℚ)) - 1/2| := by
        rw [show totalDurationOf readWav (f0 :: fs) +
            (fs.length : ℚ) * ((silenceFrames par.framerate : ℚ) / (par.framerate : ℚ)) -
            (totalDurationOf readWav (f0 :: fs) + (fs.length : ℚ) * (1/2)) =
            (fs.length : ℚ) *
              (((silenceFrames par.framerate : ℚ) / (par.framerate : ℚ)) - 1/2) by ring]
        rw [abs_mul, abs_of_nonneg (by positivity : (0:ℚ) ≤ (fs.length : ℚ))]
    _ ≤ (fs.length : ℚ) * (1 / (2 * (par.framerate : ℚ))) := by
        apply mul_le_mul_of_nonneg_left hclose (by positivity)
    _ = (fs.length : ℚ) / (2 * (par.framerate : ℚ)) := by ring

/-- C3 witness: the amended statement at two concrete 2 Hz clips. -/
theorem C3_witness :
    ∃ o, combine_wav_files cReadShared ["a.wav", "b.wav"] "c3.wav" =
      .ok ("c3.wav", o) ∧
      o.params = (⟨1, 1, 2⟩ : WavParams) ∧
      o.nframes = totalFramesOf cReadShared ["a.wav", "b.wav"] +
        [("b.wav" : String)].length * silenceFrames 2 ∧
      wavDuration o = totalDurationOf cReadShared ["a.wav", "b.wav"] +
        (([("b.wav" : String)].length : ℚ)) * ((silenceFrames 2 : ℚ) / (2 : ℚ)) ∧
      |wavDuration o - (totalDurationOf cReadShared ["a.wav", "b.wav"] +
          (([("b.wav" : String)].length : ℚ)) * (1/2))| ≤
        (([("b.wav" : String)].length : ℚ)) / (2 * (2 : ℚ)) :=
  C3_amended_combine_duration cReadShared "a.wav" ["b.wav"] "c3.wav" ⟨1, 1, 2⟩
    (by decide) (by decide)
    (by
      intro f hf
      rcases List.mem_cons.mp hf with h | h
      · exact ⟨⟨⟨1, 1, 2⟩, [5, 6]⟩, by rw [h]; decide, rfl, by decide⟩
      · have hb : f = "b.wav" := by simpa using h
        exact ⟨⟨⟨1, 1, 2⟩, [7, 8, 9, 10]⟩, by rw [hb]; decide, rfl, by decide⟩)

/-! ## Parameter validation (C6) -/

theorem quarterQ_eq : quarterQ = 1/4 := by
  show (⟨1, 4, by decide, by decide⟩ : ℚ) = 1/4
  rw [Rat.mk'_eq_divInt]
  norm_num [Rat.divInt_eq_div]

/-- C6: for every parameter dict, validation returns (it is a total
function, raising nothing) a dict whose speed lies in [0.25, 4.0] and whose
pitch lies in [-20, 20], and values already inside those ranges are
returned unchanged (absent keys take the defaults 1.0 and 0.0 first). -/
theorem C6_validate_clamps (p : ParamsDict) :
    ∃ s q, validate_synthesis_params p = ⟨some s, some q⟩ ∧
      1/4 ≤ s ∧ s ≤ 4 ∧ -20 ≤ q ∧ q ≤ 20 ∧
      (1/4 ≤ p.speed?.getD 1 → p.speed?.getD 1 ≤ 4 → s = p.speed?.getD 1) ∧
      (-20 ≤ p.pitch?.getD 0 → p.pitch?.getD 0 ≤ 20 → q = p.pitch?.getD 0) := by
  simp only [validate_synthesis_params, quarterQ_eq]
  refine ⟨_, _, rfl, ?_, ?_, ?_, ?_, ?_, ?_⟩ <;>
    · split_ifs <;> intros <;> first | rfl | linarith

/-- C6 witness: validation at the out-of-range dict `{speed: 5, pitch: -30}`. -/
theorem C6_witness :
    ∃ s q, validate_synthesis_params ⟨some 5, some (-30)⟩ = ⟨some s, some q⟩ ∧
      1/4 ≤ s ∧ s ≤ 4 ∧ -20 ≤ q ∧ q ≤ 20 ∧
      (1/4 ≤ (5 : ℚ) → (5 : ℚ) ≤ 4 → s = 5) ∧
      (-20 ≤ (-30 : ℚ) → (-30 : ℚ) ≤ 20 → q = -30) :=
  C6_validate_clamps ⟨some 5, some (-30)⟩

/-- C5 witness: the refinement at the spec's directive scenario. -/
theorem C5_witness :
    parse_text_content "[男性]\n速度: 1.5\nピッチ: 2\nこんにちは" =
      parseBlockwise "[男性]\n速度: 1.5\nピッチ: 2\nこんにちは" :=
  C5_parse_eq_blockwise "[男性]\n速度: 1.5\nピッチ: 2\nこんにちは"

end VoiceDialogue
